import Mathlib

/-
Verification of the export-with-cache subsystem of
`Modelado-Predictivo-de-Incendios-Forestales` (src/gee_utils.py, src/app.py).

The embedding models the filesystem as an association list from paths to
file data plus a list of existing directories.  Every path manipulated by
the program is built with `os.path.join(dir, base)`, so paths are modelled
as (directory, basename) pairs.  The remote provider (Earth Engine +
HTTP) is modelled as an oracle `RemoteEnv` supplying the download URL and
the HTTP response for a URL; one `getDownloadURL`/`requests.get` pair on
the cache-miss path counts as one remote submission.
-/

namespace GeeUtils

/-- Character-list helper: `listStarts sub s` is true when `s` starts with `sub`
(models Python string operations used below). -/
def listStarts : List Char → List Char → Bool
  | [], _ => true
  | _ :: _, [] => false
  | a :: as, b :: bs => a == b && listStarts as bs

/-- `listHasSub sub s` : `sub` occurs as a contiguous substring of `s`
(models Python's `sub in s`). -/
def listHasSub (sub : List Char) : List Char → Bool
  | [] => listStarts sub []
  | c :: rest => listStarts sub (c :: rest) || listHasSub sub rest

/-- `listEnds suf s` : `s` ends with `suf` (models Python `str.endswith`). -/
def listEnds (suf s : List Char) : Bool :=
  listStarts suf.reverse s.reverse

/-- A filesystem path, as produced by `os.path.join(dir, base)`; every path the
program touches is built this way. -/
structure FPath where
  dir : String
  base : String
deriving DecidableEq, Repr

/-- Contents of a file on disk.  `truncated` records a file whose write was
interrupted (e.g. a CRC failure in the middle of `ZipFile.extract`, which
creates the target file before the error is raised). -/
inductive FileData where
  | complete (payload : Nat)
  | truncated
deriving DecidableEq, Repr

/-- The local filesystem: association list path → data, plus existing dirs. -/
structure FS where
  files : List (FPath × FileData)
  dirs : List String
deriving DecidableEq, Repr

/-- First binding of `p` in an association list. -/
def lookupFile : List (FPath × FileData) → FPath → Option FileData
  | [], _ => none
  | e :: rest, p => if e.1 = p then some e.2 else lookupFile rest p

/-- Remove every binding of `p`. -/
def removeFile : List (FPath × FileData) → FPath → List (FPath × FileData)
  | [], _ => []
  | e :: rest, p => if e.1 = p then removeFile rest p else e :: removeFile rest p

def FS.getFile (fs : FS) (p : FPath) : Option FileData :=
  lookupFile fs.files p

/-- Writing a file creates it or overwrites the previous contents. -/
def FS.setFile (fs : FS) (p : FPath) (d : FileData) : FS :=
  { fs with files := (p, d) :: removeFile fs.files p }

/-- Models `os.path.exists` (true also for a truncated file: it is on disk). -/
def os_path_exists (fs : FS) (p : FPath) : Bool :=
  (fs.getFile p).isSome

/-- Models `os.path.join(dir, base)`. -/
def os_path_join (dir base : String) : FPath :=
  ⟨dir, base⟩

/-- Models `os.path.dirname` on a joined path. -/
def os_path_dirname (p : FPath) : String :=
  p.dir

/-- Models `os.makedirs(d, exist_ok=ok)`: creates the directory if absent;
with `exist_ok=False` an existing directory raises `FileExistsError`. -/
def os_makedirs (fs : FS) (d : String) (exist_ok : Bool) : Except String FS :=
  if d ∈ fs.dirs then
    if exist_ok then .ok fs else .error "FileExistsError"
  else
    .ok { fs with dirs := d :: fs.dirs }

/-- The directory-creating effect of `os.makedirs(d, exist_ok=True)`. -/
def ensureDir (fs : FS) (d : String) : FS :=
  if d ∈ fs.dirs then fs else { fs with dirs := d :: fs.dirs }

/-- One member of the downloaded ZIP archive.  `intact := false` models a
member whose extraction fails (CRC/corruption detected mid-copy): the target
file is created truncated and `extractall` raises. -/
structure ZipEntry where
  filename : String
  payload : Nat
  intact : Bool
deriving DecidableEq, Repr

/-- Body of the HTTP response: either not a valid ZIP (`zipfile.ZipFile`
raises `BadZipFile`, e.g. a truncated body) or an archive of members. -/
inductive ZipBody where
  | corrupt
  | archive (entries : List ZipEntry)
deriving DecidableEq, Repr

/-- An HTTP response as seen by `requests.get`. -/
structure HttpResp where
  status : Nat
  body : ZipBody
deriving DecidableEq, Repr

/-- The `region` argument of `export_if_needed`: an `ee.Geometry` (whose
coordinates are fetched with `.coordinates().getInfo()`) or a raw
coordinate list. -/
inductive Region where
  | geometry (coords : List (Int × Int))
  | coordList (coords : List (Int × Int))
deriving DecidableEq, Repr

/-- `region_coords` as computed at lines 184-187 of gee_utils.py. -/
def regionCoords : Region → List (Int × Int)
  | .geometry c => c
  | .coordList c => c

/-- The parameter dictionary passed to `img.getDownloadURL`. -/
structure DownloadParams where
  scale : Nat
  crs : String
  region : List (Int × Int)
  format : String
deriving DecidableEq, Repr

/-- The remote provider, as an oracle: `getDownloadURL` for an image handle
and parameters, and the HTTP response `requests.get` receives for a URL. -/
structure RemoteEnv where
  getDownloadURL : Nat → DownloadParams → String
  httpGet : String → HttpResp

/-- Errors that `_download_url_to_tif` / `export_if_needed` can raise.
`httpError` is `requests.HTTPError` from `raise_for_status` (the spec's
`TransferError`); `badZipFile` is `zipfile.BadZipFile` on a body that is not
a ZIP; `extractError` is a failure while extracting the named member;
`osError` is an `OSError` from `os.makedirs`. -/
inductive ExportError where
  | osError (msg : String)
  | httpError (status : Nat)
  | badZipFile
  | extractError (filename : String)
deriving DecidableEq, Repr

/-- Models `ZipFile.extractall(dir)`: members are written one by one directly
into `dir`; a non-intact member leaves a truncated file at its target path and
aborts the remaining members with an error naming the member. -/
def extractAll (fs : FS) (dir : String) : List ZipEntry → FS × Option String
  | [] => (fs, none)
  | e :: rest =>
    if e.intact then
      extractAll (fs.setFile (os_path_join dir e.filename) (.complete e.payload)) dir rest
    else
      (fs.setFile (os_path_join dir e.filename) .truncated, some e.filename)

/-- `_download_url_to_tif(url, out_tif)` (gee_utils.py lines 158-164):
`requests.get`, `raise_for_status` (raises iff 400 ≤ status < 600), parse the
body as a ZIP, `extractall(os.path.dirname(out_tif))`. -/
def _download_url_to_tif (env : RemoteEnv) (url : String) (out_tif : FPath)
    (fs : FS) : FS × Except ExportError Unit :=
  let r := env.httpGet url
  if 400 ≤ r.status ∧ r.status < 600 then
    (fs, .error (.httpError r.status))
  else
    match r.body with
    | .corrupt => (fs, .error .badZipFile)
    | .archive entries =>
      match extractAll fs (os_path_dirname out_tif) entries with
      | (fs1, none) => (fs1, .ok ())
      | (fs1, some f) => (fs1, .error (.extractError f))

/-- ASCII lower-casing of one character (the effect of Python's `str.lower`
on the ASCII names handled here). -/
def charLower (c : Char) : Char :=
  if 65 ≤ c.toNat ∧ c.toNat ≤ 90 then Char.ofNat (c.toNat + 32) else c

/-- Python's `s.lower()`, character by character. -/
def strLower (s : String) : List Char :=
  s.data.map charLower

/-- The match test of the fallback scan (gee_utils.py line 203):
`f.lower().endswith('.tif') and name.lower() in f.lower()`. -/
def tifMatch (name f : String) : Bool :=
  listEnds ".tif".data (strLower f) && listHasSub (strLower name) (strLower f)

/-- The files `os.walk(out_dir)` yields.  Extraction targets are written
directly into `out_dir` (member names are modelled as flat basenames), so the
walk visits the single root `out_dir` and yields the basenames filed there. -/
def walkFiles (fs : FS) (out_dir : String) : List String :=
  (fs.files.filter (fun e => decide (e.1.dir = out_dir))).map (fun e => e.1.base)

/-- The fallback scan of gee_utils.py lines 200-205: walk `out_dir`, take the
first file whose name matches `tifMatch`, else keep the default path. -/
def scanWalk (fs : FS) (out_dir name : String) (dflt : FPath) : FPath :=
  match (walkFiles fs out_dir).find? (fun f => tifMatch name f) with
  | some f => os_path_join out_dir f
  | none => dflt

/-- The deterministic cache path `os.path.join(out_dir, f"{name}.tif")`
(gee_utils.py line 177). -/
def cacheLookupPath (name out_dir : String) : FPath :=
  os_path_join out_dir (name ++ ".tif")

/-- The download URL requested at gee_utils.py lines 189-194:
`img.getDownloadURL({'scale': scale, 'crs': 'EPSG:4326', 'region':
region_coords, 'format': 'GEO_TIFF'})`. -/
def requestURL (env : RemoteEnv) (img : Nat) (region : Region) (scale : Nat) :
    String :=
  env.getDownloadURL img ⟨scale, "EPSG:4326", regionCoords region, "GEO_TIFF"⟩

/-- Result of one `export_if_needed` call: the returned path or raised error,
the filesystem afterwards, and how many remote submissions (download-URL
request / fetch pairs) the call performed. -/
structure ExportResult where
  ret : Except ExportError FPath
  fs : FS
  submissions : Nat

/-- `export_if_needed(img, name, region, scale, out_dir)` (gee_utils.py lines
167-207): `os.makedirs(out_dir, exist_ok=True)`; cache-hit check at
`{out_dir}/{name}.tif`; on a miss, resolve the region coordinates, request a
download URL with crs `'EPSG:4326'` and format `'GEO_TIFF'`, download and
extract, then fall back to the directory scan when the expected file is
absent, and return the final path. -/
def export_if_needed (env : RemoteEnv) (img : Nat) (name : String)
    (region : Region) (scale : Nat) (out_dir : String) (fs : FS) :
    ExportResult :=
  match os_makedirs fs out_dir true with
  | .error e => { ret := .error (.osError e), fs := fs, submissions := 0 }
  | .ok fs0 =>
    let out_tif := cacheLookupPath name out_dir
    if os_path_exists fs0 out_tif then
      { ret := .ok out_tif, fs := fs0, submissions := 0 }
    else
      let url := requestURL env img region scale
      match _download_url_to_tif env url out_tif fs0 with
      | (fs1, .error e) => { ret := .error e, fs := fs1, submissions := 1 }
      | (fs1, .ok ()) =>
        let final :=
          if os_path_exists fs1 out_tif then out_tif
          else scanWalk fs1 out_dir name out_tif
        { ret := .ok final, fs := fs1, submissions := 1 }

/-
Helper lemmas about the filesystem model and the branch structure of
`export_if_needed`.  These are shared infrastructure; the claim theorems
follow after them.
-/

theorem lookupFile_removeFile_ne (l : List (FPath × FileData)) (p q : FPath)
    (h : q ≠ p) : lookupFile (removeFile l p) q = lookupFile l q := by
  induction l with
  | nil => rfl
  | cons e rest ih =>
    by_cases hp : e.1 = p
    · have hq : ¬ (e.1 = q) := by rw [hp]; exact fun hpq => h hpq.symm
      simp only [removeFile, if_pos hp, lookupFile, if_neg hq, ih]
    · by_cases hq : e.1 = q
      · simp only [removeFile, if_neg hp, lookupFile, if_pos hq]
      · simp only [removeFile, if_neg hp, lookupFile, if_neg hq, ih]

theorem getFile_setFile_self (fs : FS) (p : FPath) (d : FileData) :
    (fs.setFile p d).getFile p = some d := by
  simp [FS.setFile, FS.getFile, lookupFile]

theorem getFile_setFile_ne (fs : FS) (p q : FPath) (d : FileData) (h : q ≠ p) :
    (fs.setFile p d).getFile q = fs.getFile q := by
  have hpq : ¬ (p = q) := fun hpq => h hpq.symm
  simp only [FS.setFile, FS.getFile, lookupFile, if_neg hpq]
  exact lookupFile_removeFile_ne _ _ _ h

theorem setFile_dirs (fs : FS) (p : FPath) (d : FileData) :
    (fs.setFile p d).dirs = fs.dirs := rfl

theorem os_makedirs_true (fs : FS) (d : String) :
    os_makedirs fs d true = .ok (ensureDir fs d) := by
  unfold os_makedirs ensureDir
  split <;> rfl

theorem ensureDir_files (fs : FS) (d : String) :
    (ensureDir fs d).files = fs.files := by
  unfold ensureDir; split <;> rfl

theorem mem_ensureDir (fs : FS) (d : String) : d ∈ (ensureDir fs d).dirs := by
  unfold ensureDir
  split
  · assumption
  · exact List.mem_cons_self _ _

theorem getFile_ensureDir (fs : FS) (d : String) (p : FPath) :
    (ensureDir fs d).getFile p = fs.getFile p := by
  unfold FS.getFile
  rw [ensureDir_files]

theorem os_path_exists_ensureDir (fs : FS) (d : String) (p : FPath) :
    os_path_exists (ensureDir fs d) p = os_path_exists fs p := by
  unfold os_path_exists
  rw [getFile_ensureDir]

theorem export_hit (env : RemoteEnv) (img : Nat) (name : String) (region : Region)
    (scale : Nat) (out_dir : String) (fs : FS)
    (h : os_path_exists fs (cacheLookupPath name out_dir) = true) :
    export_if_needed env img name region scale out_dir fs =
      { ret := .ok (cacheLookupPath name out_dir), fs := ensureDir fs out_dir,
        submissions := 0 } := by
  unfold export_if_needed
  rw [os_makedirs_true]
  simp [os_path_exists_ensureDir, h]

theorem export_miss (env : RemoteEnv) (img : Nat) (name : String)
    (region : Region) (scale : Nat) (out_dir : String) (fs : FS)
    (h : os_path_exists fs (cacheLookupPath name out_dir) = false) :
    export_if_needed env img name region scale out_dir fs =
      match _download_url_to_tif env (requestURL env img region scale)
          (cacheLookupPath name out_dir) (ensureDir fs out_dir) with
      | (fs1, .error e) => { ret := .error e, fs := fs1, submissions := 1 }
      | (fs1, .ok ()) =>
        { ret := .ok (if os_path_exists fs1 (cacheLookupPath name out_dir) then
                        cacheLookupPath name out_dir
                      else scanWalk fs1 out_dir name (cacheLookupPath name out_dir)),
          fs := fs1, submissions := 1 } := by
  unfold export_if_needed
  rw [os_makedirs_true]
  simp [os_path_exists_ensureDir, h]

theorem export_miss_submissions (env : RemoteEnv) (img : Nat) (name : String)
    (region : Region) (scale : Nat) (out_dir : String) (fs : FS)
    (h : os_path_exists fs (cacheLookupPath name out_dir) = false) :
    (export_if_needed env img name region scale out_dir fs).submissions = 1 := by
  rw [export_miss env img name region scale out_dir fs h]
  rcases hdl : _download_url_to_tif env (requestURL env img region scale)
      (cacheLookupPath name out_dir) (ensureDir fs out_dir) with ⟨fs1, res⟩
  cases res with
  | error e => rfl
  | ok u => cases u; rfl

theorem download_http_error (env : RemoteEnv) (url : String) (out_tif : FPath)
    (fs : FS) (h : 400 ≤ (env.httpGet url).status ∧ (env.httpGet url).status < 600) :
    _download_url_to_tif env url out_tif fs =
      (fs, .error (.httpError (env.httpGet url).status)) := by
  unfold _download_url_to_tif
  rw [if_pos h]

theorem extractAll_dirs (dir : String) (es : List ZipEntry) (fs : FS) :
    ((extractAll fs dir es).1).dirs = fs.dirs := by
  induction es generalizing fs with
  | nil => rfl
  | cons e rest ih =>
    cases he : e.intact with
    | true => simp only [extractAll, he, if_true]; rw [ih]; rfl
    | false => simp [extractAll, he, setFile_dirs]

theorem extractAll_frame (dir : String) (es : List ZipEntry) (p : FPath)
    (hp : ∀ e ∈ es, os_path_join dir e.filename ≠ p) (fs : FS) :
    ((extractAll fs dir es).1).getFile p = fs.getFile p := by
  induction es generalizing fs with
  | nil => rfl
  | cons e rest ih =>
    have hne : p ≠ os_path_join dir e.filename :=
      Ne.symm (hp e (List.mem_cons_self _ _))
    cases he : e.intact with
    | true =>
      simp only [extractAll, he, if_true]
      rw [ih (fun b hb => hp b (List.mem_cons_of_mem _ hb))]
      exact getFile_setFile_ne _ _ _ _ hne
    | false =>
      simp only [extractAll, he, Bool.false_eq_true, if_false]
      exact getFile_setFile_ne _ _ _ _ hne

theorem extractAll_ok_exists (dir : String) (es : List ZipEntry) (fs fs' : FS)
    (hex : extractAll fs dir es = (fs', none)) :
    ∀ e ∈ es, os_path_exists fs' (os_path_join dir e.filename) = true := by
  induction es generalizing fs with
  | nil => intro e he; cases he
  | cons a rest ih =>
    cases ha : a.intact with
    | false => simp [extractAll, ha] at hex
    | true =>
      simp only [extractAll, ha, if_true] at hex
      intro e he
      rcases List.mem_cons.mp he with rfl | hmem
      · by_cases hdup : ∃ b ∈ rest, os_path_join dir b.filename = os_path_join dir e.filename
        · obtain ⟨b, hb, hbeq⟩ := hdup
          have := ih _ hex b hb
          rw [hbeq] at this
          exact this
        · push_neg at hdup
          have hframe := extractAll_frame dir rest (os_path_join dir e.filename) hdup
            (fs.setFile (os_path_join dir e.filename) (.complete e.payload))
          rw [hex] at hframe
          unfold os_path_exists
          rw [hframe, getFile_setFile_self]
          rfl
      · exact ih _ hex e hmem

theorem export_miss_extract_ok (env : RemoteEnv) (img : Nat) (name : String)
    (region : Region) (scale : Nat) (out_dir : String) (fs : FS)
    (es : List ZipEntry) (fs1 : FS)
    (hmiss : os_path_exists fs (cacheLookupPath name out_dir) = false)
    (hstat : ¬(400 ≤ (env.httpGet (requestURL env img region scale)).status ∧
              (env.httpGet (requestURL env img region scale)).status < 600))
    (hbody : (env.httpGet (requestURL env img region scale)).body = .archive es)
    (hex : extractAll (ensureDir fs out_dir) out_dir es = (fs1, none)) :
    export_if_needed env img name region scale out_dir fs =
      { ret := .ok (if os_path_exists fs1 (cacheLookupPath name out_dir) then
                      cacheLookupPath name out_dir
                    else scanWalk fs1 out_dir name (cacheLookupPath name out_dir)),
        fs := fs1, submissions := 1 } := by
  rw [export_miss _ _ _ _ _ _ _ hmiss]
  unfold _download_url_to_tif
  rw [if_neg hstat, hbody]
  simp only [os_path_dirname, cacheLookupPath, os_path_join]
  rw [hex]

theorem download_dirs (env : RemoteEnv) (url : String) (out_tif : FPath)
    (fs : FS) :
    ((_download_url_to_tif env url out_tif fs).1).dirs = fs.dirs := by
  unfold _download_url_to_tif
  by_cases hs : 400 ≤ (env.httpGet url).status ∧ (env.httpGet url).status < 600
  · rw [if_pos hs]
  · rw [if_neg hs]
    cases hb : (env.httpGet url).body with
    | corrupt => rfl
    | archive es =>
      rcases hex : extractAll fs (os_path_dirname out_tif) es with ⟨fs1, r⟩
      have hd := extractAll_dirs (os_path_dirname out_tif) es fs
      rw [hex] at hd
      dsimp only
      rw [hex]
      cases r with
      | none => exact hd
      | some f => exact hd

theorem download_no_osError (env : RemoteEnv) (url : String) (out_tif : FPath)
    (fs fs1 : FS) (e : ExportError) (msg : String)
    (h : _download_url_to_tif env url out_tif fs = (fs1, .error e)) :
    e ≠ .osError msg := by
  unfold _download_url_to_tif at h
  by_cases hs : 400 ≤ (env.httpGet url).status ∧ (env.httpGet url).status < 600
  · rw [if_pos hs] at h
    injection h with h1 h2
    injection h2 with h3
    subst h3
    intro hc
    cases hc
  · rw [if_neg hs] at h
    cases hb : (env.httpGet url).body with
    | corrupt =>
      rw [hb] at h
      injection h with h1 h2
      injection h2 with h3
      subst h3
      intro hc
      cases hc
    | archive es =>
      rw [hb] at h
      dsimp only at h
      rcases hex : extractAll fs (os_path_dirname out_tif) es with ⟨fs2, r⟩
      rw [hex] at h
      cases r with
      | none =>
        injection h with h1 h2
        cases h2
      | some f =>
        injection h with h1 h2
        injection h2 with h3
        subst h3
        intro hc
        cases hc

/-
Completion Waiter (spec 4.3).  The async-job strategy does not appear in the
code under src/; the waiter below is modelled from the spec, as its doc
comment records.
-/

/-- Job states reported by the remote provider for an export job
(spec: `ExportJob.state` with values Pending, Running, Completed, Failed;
Failed carries the provider's status payload). -/
inductive JobState where
  | pending
  | running
  | completed
  | failed (payload : String)
deriving DecidableEq, Repr

/-- Whether a job state is terminal (Completed or Failed). -/
def JobState.isTerminal : JobState → Bool
  | .completed => true
  | .failed _ => true
  | _ => false

/-- Modelled from the spec: the Completion Waiter of the async-job strategy is
absent from the code under src/ (gee_utils.py implements only the
direct-download strategy), so its poll loop is modelled from the spec's words:
it polls job status at a fixed interval, with no backoff and no maximum wait,
returns to the caller on Completed and raises a fatal error carrying the
provider's status payload on Failed.  `status k` is the state the provider
reports at the k-th poll; the result pairs the outcome with the elapsed
waiting time (`interval * k` after k sleeps of the fixed interval); `none`
means the loop is still blocked after `fuel` polls — the loop itself offers no
exit besides a terminal job state. -/
def pollLoop (status : Nat → JobState) (interval : Nat) :
    Nat → Nat → Option (Except String Unit × Nat)
  | 0, _ => none
  | fuel + 1, k =>
    match status k with
    | .completed => some (.ok (), interval * k)
    | .failed p => some (.error p, interval * k)
    | _ => pollLoop status interval fuel (k + 1)

/-- Modelled from the spec: the Completion Waiter entry point, polling at the
fixed default interval of 30 time-units. -/
def waitForCompletion (status : Nat → JobState) (fuel : Nat) :
    Option (Except String Unit × Nat) :=
  pollLoop status 30 fuel 0

theorem pollLoop_none (status : Nat → JobState) (interval : Nat) :
    ∀ fuel k0, (∀ j, j < fuel → (status (k0 + j)).isTerminal = false) →
      pollLoop status interval fuel k0 = none := by
  intro fuel
  induction fuel with
  | zero => intro k0 _; rfl
  | succ n ih =>
    intro k0 h
    have h0 : (status k0).isTerminal = false := by
      have := h 0 (Nat.succ_pos n)
      simpa using this
    have hrest : ∀ j, j < n → (status ((k0 + 1) + j)).isTerminal = false := by
      intro j hj
      have heq : (k0 + 1) + j = k0 + (j + 1) := by omega
      rw [heq]
      exact h (j + 1) (by omega)
    cases hs : status k0 with
    | completed => rw [hs] at h0; cases h0
    | failed p => rw [hs] at h0; cases h0
    | pending =>
      simp only [pollLoop, hs]
      exact ih (k0 + 1) hrest
    | running =>
      simp only [pollLoop, hs]
      exact ih (k0 + 1) hrest

theorem pollLoop_completed (status : Nat → JobState) (interval : Nat) :
    ∀ fuel k0 n, (∀ j, j < n → (status (k0 + j)).isTerminal = false) →
      status (k0 + n) = .completed → n < fuel →
      pollLoop status interval fuel k0 = some (.ok (), interval * (k0 + n)) := by
  intro fuel
  induction fuel with
  | zero => intro k0 n _ _ hn; cases hn
  | succ m ih =>
    intro k0 n hbef hterm hn
    cases n with
    | zero =>
      simp only [Nat.add_zero] at hterm
      simp only [pollLoop, hterm, Nat.add_zero]
    | succ j =>
      have h0 : (status k0).isTerminal = false := by
        have := hbef 0 (Nat.succ_pos j)
        simpa using this
      have hbef1 : ∀ i, i < j → (status ((k0 + 1) + i)).isTerminal = false := by
        intro i hi
        have heq : (k0 + 1) + i = k0 + (i + 1) := by omega
        rw [heq]
        exact hbef (i + 1) (by omega)
      have hterm1 : status ((k0 + 1) + j) = .completed := by
        have heq : (k0 + 1) + j = k0 + (j + 1) := by omega
        rw [heq]
        exact hterm
      have hres := ih (k0 + 1) j hbef1 hterm1 (by omega)
      have heq2 : (k0 + 1) + j = k0 + (j + 1) := by omega
      rw [heq2] at hres
      cases hs : status k0 with
      | completed => rw [hs] at h0; cases h0
      | failed p => rw [hs] at h0; cases h0
      | pending => simp only [pollLoop, hs]; exact hres
      | running => simp only [pollLoop, hs]; exact hres

theorem pollLoop_failed (status : Nat → JobState) (interval : Nat) (p : String) :
    ∀ fuel k0 n, (∀ j, j < n → (status (k0 + j)).isTerminal = false) →
      status (k0 + n) = .failed p → n < fuel →
      pollLoop status interval fuel k0 = some (.error p, interval * (k0 + n)) := by
  intro fuel
  induction fuel with
  | zero => intro k0 n _ _ hn; cases hn
  | succ m ih =>
    intro k0 n hbef hterm hn
    cases n with
    | zero =>
      simp only [Nat.add_zero] at hterm
      simp only [pollLoop, hterm, Nat.add_zero]
    | succ j =>
      have h0 : (status k0).isTerminal = false := by
        have := hbef 0 (Nat.succ_pos j)
        simpa using this
      have hbef1 : ∀ i, i < j → (status ((k0 + 1) + i)).isTerminal = false := by
        intro i hi
        have heq : (k0 + 1) + i = k0 + (i + 1) := by omega
        rw [heq]
        exact hbef (i + 1) (by omega)
      have hterm1 : status ((k0 + 1) + j) = .failed p := by
        have heq : (k0 + 1) + j = k0 + (j + 1) := by omega
        rw [heq]
        exact hterm
      have hres := ih (k0 + 1) j hbef1 hterm1 (by omega)
      have heq2 : (k0 + 1) + j = k0 + (j + 1) := by omega
      rw [heq2] at hres
      cases hs : status k0 with
      | completed => rw [hs] at h0; cases h0
      | failed q => rw [hs] at h0; cases h0
      | pending => simp only [pollLoop, hs]; exact hres
      | running => simp only [pollLoop, hs]; exact hres

/-
Claim theorems.
-/

/-- A mock remote client: every download-URL request yields the same URL and
every fetch yields the fixed response `resp`. -/
def mockEnv (resp : HttpResp) : RemoteEnv :=
  ⟨fun _ _ => "https://earthengine/download", fun _ => resp⟩

/-- Claim C3: if a file already exists at the deterministic path
`{out_dir}/{name}.tif`, `export_if_needed` returns that exact path
immediately, performs no remote submission, writes no file, and (when the
output directory already exists) leaves the filesystem untouched. -/
theorem cache_hit_short_circuit (env : RemoteEnv) (img : Nat) (name : String)
    (region : Region) (scale : Nat) (out_dir : String) (fs : FS)
    (h : os_path_exists fs (cacheLookupPath name out_dir) = true) :
    (export_if_needed env img name region scale out_dir fs).ret =
        .ok (cacheLookupPath name out_dir) ∧
    (export_if_needed env img name region scale out_dir fs).submissions = 0 ∧
    (export_if_needed env img name region scale out_dir fs).fs.files = fs.files ∧
    (out_dir ∈ fs.dirs →
      export_if_needed env img name region scale out_dir fs =
        { ret := .ok (cacheLookupPath name out_dir), fs := fs, submissions := 0 }) := by
  rw [export_hit env img name region scale out_dir fs h]
  refine ⟨rfl, rfl, ensureDir_files fs out_dir, fun hd => ?_⟩
  simp [ensureDir, hd]

/-- Claim C3 witness: a concrete cache hit. -/
theorem cache_hit_short_circuit_witness :
    os_path_exists ⟨[(⟨"d", "NDVI.tif"⟩, .complete 1)], ["d"]⟩
        (cacheLookupPath "NDVI" "d") = true ∧
    ((export_if_needed (mockEnv ⟨200, .archive []⟩) 0 "NDVI" (.coordList [])
        250 "d" ⟨[(⟨"d", "NDVI.tif"⟩, .complete 1)], ["d"]⟩).ret =
          .ok (cacheLookupPath "NDVI" "d") ∧
      (export_if_needed (mockEnv ⟨200, .archive []⟩) 0 "NDVI" (.coordList [])
        250 "d" ⟨[(⟨"d", "NDVI.tif"⟩, .complete 1)], ["d"]⟩).submissions = 0 ∧
      (export_if_needed (mockEnv ⟨200, .archive []⟩) 0 "NDVI" (.coordList [])
        250 "d" ⟨[(⟨"d", "NDVI.tif"⟩, .complete 1)], ["d"]⟩).fs.files =
          (⟨[(⟨"d", "NDVI.tif"⟩, .complete 1)], ["d"]⟩ : FS).files ∧
      ("d" ∈ (⟨[(⟨"d", "NDVI.tif"⟩, .complete 1)], ["d"]⟩ : FS).dirs →
        export_if_needed (mockEnv ⟨200, .archive []⟩) 0 "NDVI" (.coordList [])
          250 "d" ⟨[(⟨"d", "NDVI.tif"⟩, .complete 1)], ["d"]⟩ =
            { ret := .ok (cacheLookupPath "NDVI" "d"),
              fs := ⟨[(⟨"d", "NDVI.tif"⟩, .complete 1)], ["d"]⟩,
              submissions := 0 })) :=
  ⟨by decide,
   cache_hit_short_circuit (mockEnv ⟨200, .archive []⟩) 0 "NDVI" (.coordList [])
     250 "d" ⟨[(⟨"d", "NDVI.tif"⟩, .complete 1)], ["d"]⟩ (by decide)⟩

/-- Claim C4: the cache lookup path used by `export_if_needed` is determined
by `name` and `out_dir` alone; two calls with identical name and output
directory but arbitrary other fields (image, region, scale, remote state) use
the same local path, and on a hit both return exactly that path. -/
theorem cache_key_determinism (env1 env2 : RemoteEnv) (img1 img2 : Nat)
    (r1 r2 : Region) (s1 s2 : Nat) (name1 name2 out_dir1 out_dir2 : String)
    (fs : FS) (hname : name1 = name2) (hdir : out_dir1 = out_dir2)
    (hhit : os_path_exists fs (cacheLookupPath name1 out_dir1) = true) :
    cacheLookupPath name1 out_dir1 = cacheLookupPath name2 out_dir2 ∧
    (export_if_needed env1 img1 name1 r1 s1 out_dir1 fs).ret =
        .ok (cacheLookupPath name1 out_dir1) ∧
    (export_if_needed env2 img2 name2 r2 s2 out_dir2 fs).ret =
        .ok (cacheLookupPath name1 out_dir1) := by
  subst hname
  subst hdir
  rw [export_hit env1 img1 name1 r1 s1 out_dir1 fs hhit,
      export_hit env2 img2 name1 r2 s2 out_dir1 fs hhit]
  exact ⟨rfl, rfl, rfl⟩

/-- Claim C4 witness: two descriptors sharing only name and out_dir (different
image, region, scale and remote state) resolve to the same path. -/
theorem cache_key_determinism_witness :
    "NDVI" = "NDVI" ∧ "d" = "d" ∧
    os_path_exists ⟨[(⟨"d", "NDVI.tif"⟩, .complete 1)], ["d"]⟩
        (cacheLookupPath "NDVI" "d") = true ∧
    (cacheLookupPath "NDVI" "d" = cacheLookupPath "NDVI" "d" ∧
     (export_if_needed (mockEnv ⟨200, .archive []⟩) 0 "NDVI"
        (.coordList [(0, 0)]) 250 "d"
        ⟨[(⟨"d", "NDVI.tif"⟩, .complete 1)], ["d"]⟩).ret =
          .ok (cacheLookupPath "NDVI" "d") ∧
     (export_if_needed (mockEnv ⟨503, .corrupt⟩) 7 "NDVI"
        (.geometry [(5, 5), (6, 6)]) 1000 "d"
        ⟨[(⟨"d", "NDVI.tif"⟩, .complete 1)], ["d"]⟩).ret =
          .ok (cacheLookupPath "NDVI" "d")) :=
  ⟨rfl, rfl, by decide,
   cache_key_determinism (mockEnv ⟨200, .archive []⟩) (mockEnv ⟨503, .corrupt⟩)
     0 7 (.coordList [(0, 0)]) (.geometry [(5, 5), (6, 6)]) 250 1000
     "NDVI" "NDVI" "d" "d" ⟨[(⟨"d", "NDVI.tif"⟩, .complete 1)], ["d"]⟩
     rfl rfl (by decide)⟩

/-- Claim C5: on the direct-download path, an HTTP error status makes the
export fail with the transfer error (`requests.HTTPError` raised by
`raise_for_status`, the spec's `TransferError`) after exactly one remote
attempt, the error carrying the provider's status propagates unchanged to the
caller of `export_if_needed`, and no file is written. -/
theorem http_error_single_attempt (env : RemoteEnv) (img : Nat) (name : String)
    (region : Region) (scale : Nat) (out_dir : String) (fs : FS)
    (hmiss : os_path_exists fs (cacheLookupPath name out_dir) = false)
    (hstat : 400 ≤ (env.httpGet (requestURL env img region scale)).status ∧
             (env.httpGet (requestURL env img region scale)).status < 600) :
    (export_if_needed env img name region scale out_dir fs).ret =
        .error (.httpError (env.httpGet (requestURL env img region scale)).status) ∧
    (export_if_needed env img name region scale out_dir fs).submissions = 1 ∧
    (export_if_needed env img name region scale out_dir fs).fs.files = fs.files := by
  rw [export_miss env img name region scale out_dir fs hmiss,
      download_http_error env (requestURL env img region scale)
        (cacheLookupPath name out_dir) (ensureDir fs out_dir) hstat]
  exact ⟨rfl, rfl, ensureDir_files fs out_dir⟩

/-- Claim C5 witness: a 404 response on an empty cache. -/
theorem http_error_single_attempt_witness :
    os_path_exists ⟨[], []⟩ (cacheLookupPath "NDVI" "d") = false ∧
    (400 ≤ ((mockEnv ⟨404, .corrupt⟩).httpGet
        (requestURL (mockEnv ⟨404, .corrupt⟩) 0 (.coordList []) 250)).status ∧
     ((mockEnv ⟨404, .corrupt⟩).httpGet
        (requestURL (mockEnv ⟨404, .corrupt⟩) 0 (.coordList []) 250)).status < 600) ∧
    ((export_if_needed (mockEnv ⟨404, .corrupt⟩) 0 "NDVI" (.coordList [])
        250 "d" ⟨[], []⟩).ret =
      .error (.httpError ((mockEnv ⟨404, .corrupt⟩).httpGet
        (requestURL (mockEnv ⟨404, .corrupt⟩) 0 (.coordList []) 250)).status) ∧
     (export_if_needed (mockEnv ⟨404, .corrupt⟩) 0 "NDVI" (.coordList [])
        250 "d" ⟨[], []⟩).submissions = 1 ∧
     (export_if_needed (mockEnv ⟨404, .corrupt⟩) 0 "NDVI" (.coordList [])
        250 "d" ⟨[], []⟩).fs.files = (⟨[], []⟩ : FS).files) :=
  ⟨by decide, by decide,
   http_error_single_attempt (mockEnv ⟨404, .corrupt⟩) 0 "NDVI" (.coordList [])
     250 "d" ⟨[], []⟩ (by decide) (by decide)⟩

/-- Claim C1 counterexample: a descriptor whose archive contains only
`NDVI_v2.tif` (no member named `NDVI.tif`).  The first call succeeds through
the fallback scan, but the deterministic cache path never materializes, so the
second sequential call is again a miss: it performs a second remote
submission instead of being served from the cache. -/
theorem export_twice_not_idempotent_cex :
    (export_if_needed (mockEnv ⟨200, .archive [⟨"NDVI_v2.tif", 5, true⟩]⟩) 0
        "NDVI" (.coordList []) 250 "data" ⟨[], []⟩).ret =
      .ok ⟨"data", "NDVI_v2.tif"⟩ ∧
    (export_if_needed (mockEnv ⟨200, .archive [⟨"NDVI_v2.tif", 5, true⟩]⟩) 0
        "NDVI" (.coordList []) 250 "data" ⟨[], []⟩).submissions = 1 ∧
    (export_if_needed (mockEnv ⟨200, .archive [⟨"NDVI_v2.tif", 5, true⟩]⟩) 0
        "NDVI" (.coordList []) 250 "data"
        (export_if_needed (mockEnv ⟨200, .archive [⟨"NDVI_v2.tif", 5, true⟩]⟩) 0
          "NDVI" (.coordList []) 250 "data" ⟨[], []⟩).fs).submissions = 1 := by
  refine ⟨?_, ?_, ?_⟩ <;> rfl

/-- Claim C1 (amended): when the first call materializes the file at the
deterministic cache path `{out_dir}/{name}.tif` (as on the normal path, where
the archive contains the member `{name}.tif`), the two sequential calls
perform exactly one remote submission in total and the second call is served
from the cache: zero submissions and it returns the cached path. -/
theorem export_twice_single_submission_of_materialized (env : RemoteEnv)
    (img : Nat) (name : String) (region : Region) (scale : Nat)
    (out_dir : String) (fs : FS)
    (hmiss : os_path_exists fs (cacheLookupPath name out_dir) = false)
    (hmat : os_path_exists (export_if_needed env img name region scale out_dir fs).fs
        (cacheLookupPath name out_dir) = true) :
    (export_if_needed env img name region scale out_dir fs).submissions +
      (export_if_needed env img name region scale out_dir
        (export_if_needed env img name region scale out_dir fs).fs).submissions = 1 ∧
    (export_if_needed env img name region scale out_dir
        (export_if_needed env img name region scale out_dir fs).fs).ret =
      .ok (cacheLookupPath name out_dir) ∧
    (export_if_needed env img name region scale out_dir
        (export_if_needed env img name region scale out_dir fs).fs).submissions = 0 := by
  rw [export_miss_submissions env img name region scale out_dir fs hmiss,
      export_hit env img name region scale out_dir _ hmat]
  exact ⟨rfl, rfl, rfl⟩

/-- Claim C1 witness: an archive containing the expected member `NDVI.tif`;
the first call publishes it and the second call is a free cache hit. -/
theorem export_twice_single_submission_witness :
    os_path_exists ⟨[], []⟩ (cacheLookupPath "NDVI" "d") = false ∧
    os_path_exists (export_if_needed (mockEnv ⟨200, .archive [⟨"NDVI.tif", 3, true⟩]⟩)
        0 "NDVI" (.coordList []) 250 "d" ⟨[], []⟩).fs
        (cacheLookupPath "NDVI" "d") = true ∧
    ((export_if_needed (mockEnv ⟨200, .archive [⟨"NDVI.tif", 3, true⟩]⟩) 0
        "NDVI" (.coordList []) 250 "d" ⟨[], []⟩).submissions +
      (export_if_needed (mockEnv ⟨200, .archive [⟨"NDVI.tif", 3, true⟩]⟩) 0
        "NDVI" (.coordList []) 250 "d"
        (export_if_needed (mockEnv ⟨200, .archive [⟨"NDVI.tif", 3, true⟩]⟩) 0
          "NDVI" (.coordList []) 250 "d" ⟨[], []⟩).fs).submissions = 1 ∧
     (export_if_needed (mockEnv ⟨200, .archive [⟨"NDVI.tif", 3, true⟩]⟩) 0
        "NDVI" (.coordList []) 250 "d"
        (export_if_needed (mockEnv ⟨200, .archive [⟨"NDVI.tif", 3, true⟩]⟩) 0
          "NDVI" (.coordList []) 250 "d" ⟨[], []⟩).fs).ret =
      .ok (cacheLookupPath "NDVI" "d") ∧
     (export_if_needed (mockEnv ⟨200, .archive [⟨"NDVI.tif", 3, true⟩]⟩) 0
        "NDVI" (.coordList []) 250 "d"
        (export_if_needed (mockEnv ⟨200, .archive [⟨"NDVI.tif", 3, true⟩]⟩) 0
          "NDVI" (.coordList []) 250 "d" ⟨[], []⟩).fs).submissions = 0) :=
  ⟨by decide, by decide,
   export_twice_single_submission_of_materialized
     (mockEnv ⟨200, .archive [⟨"NDVI.tif", 3, true⟩]⟩) 0 "NDVI" (.coordList [])
     250 "d" ⟨[], []⟩ (by decide) (by decide)⟩

/-- Claim C2 (code bug): `extractall` writes archive members directly into the
output directory, in place; when extraction of the member `NDVI.tif` is
interrupted, the call raises, yet a (truncated) file is left at the final
cache path `/content/data/NDVI.tif`, so the next lookup is a hit — the
spec's "materialize to a temporary location, then move into place" is not what
the code does. -/
theorem extract_failure_leaves_file_at_cache_path :
    (export_if_needed (mockEnv ⟨200, .archive [⟨"NDVI.tif", 0, false⟩]⟩) 0
        "NDVI" (.coordList []) 250 "/content/data" ⟨[], []⟩).ret =
      .error (.extractError "NDVI.tif") ∧
    os_path_exists (export_if_needed (mockEnv ⟨200, .archive [⟨"NDVI.tif", 0, false⟩]⟩)
        0 "NDVI" (.coordList []) 250 "/content/data" ⟨[], []⟩).fs
      (cacheLookupPath "NDVI" "/content/data") = true := by
  constructor <;> rfl

/-- Claim C6 (code bug): with an archive that contains no member at all, the
download and extraction succeed vacuously, the fallback scan finds nothing,
and `export_if_needed` silently returns the path
`/content/data/NDVI.tif` even though no file exists there — instead of
surfacing an explicit error. -/
theorem silent_nonexistent_path_return :
    (export_if_needed (mockEnv ⟨200, .archive []⟩) 0 "NDVI" (.coordList [])
        250 "/content/data" ⟨[], []⟩).ret =
      .ok (cacheLookupPath "NDVI" "/content/data") ∧
    os_path_exists (export_if_needed (mockEnv ⟨200, .archive []⟩) 0 "NDVI"
        (.coordList []) 250 "/content/data" ⟨[], []⟩).fs
      (cacheLookupPath "NDVI" "/content/data") = false := by
  constructor <;> rfl

/-- Claim C7: when, after a successful download and extraction, no file
exists at the expected path `{out_dir}/{name}.tif` but the output directory
holds at least one file whose name ends in `.tif` and contains the logical
name (both case-insensitively), `export_if_needed` returns the path of such a
file. -/
theorem fallback_scan_returns_matching (env : RemoteEnv) (img : Nat)
    (name : String) (region : Region) (scale : Nat) (out_dir : String)
    (fs : FS) (es : List ZipEntry) (fs1 : FS)
    (hmiss : os_path_exists fs (cacheLookupPath name out_dir) = false)
    (hstat : ¬(400 ≤ (env.httpGet (requestURL env img region scale)).status ∧
              (env.httpGet (requestURL env img region scale)).status < 600))
    (hbody : (env.httpGet (requestURL env img region scale)).body = .archive es)
    (hex : extractAll (ensureDir fs out_dir) out_dir es = (fs1, none))
    (hnotif : os_path_exists fs1 (cacheLookupPath name out_dir) = false)
    (hsome : (walkFiles fs1 out_dir).any (fun f => tifMatch name f) = true) :
    ∃ f, tifMatch name f = true ∧ f ∈ walkFiles fs1 out_dir ∧
      (export_if_needed env img name region scale out_dir fs).ret =
        .ok (os_path_join out_dir f) := by
  have hfind : ((walkFiles fs1 out_dir).find? (fun f => tifMatch name f)).isSome := by
    rw [List.find?_isSome]
    simpa using List.any_eq_true.mp hsome
  obtain ⟨f, hf⟩ := Option.isSome_iff_exists.mp hfind
  refine ⟨f, by simpa using List.find?_some hf, List.mem_of_find?_eq_some hf, ?_⟩
  rw [export_miss_extract_ok env img name region scale out_dir fs es fs1
      hmiss hstat hbody hex]
  simp only [hnotif, Bool.false_eq_true, if_false]
  unfold scanWalk
  rw [hf]

/-- Claim C7 witness: the archive holds only `xNDVIy.tif`; the scan recovers
it for logical name `NDVI`. -/
theorem fallback_scan_returns_matching_witness :
    os_path_exists ⟨[], []⟩ (cacheLookupPath "NDVI" "d") = false ∧
    ¬(400 ≤ ((mockEnv ⟨200, .archive [⟨"xNDVIy.tif", 1, true⟩]⟩).httpGet
        (requestURL (mockEnv ⟨200, .archive [⟨"xNDVIy.tif", 1, true⟩]⟩) 0
          (.coordList []) 250)).status ∧
      ((mockEnv ⟨200, .archive [⟨"xNDVIy.tif", 1, true⟩]⟩).httpGet
        (requestURL (mockEnv ⟨200, .archive [⟨"xNDVIy.tif", 1, true⟩]⟩) 0
          (.coordList []) 250)).status < 600) ∧
    ((mockEnv ⟨200, .archive [⟨"xNDVIy.tif", 1, true⟩]⟩).httpGet
        (requestURL (mockEnv ⟨200, .archive [⟨"xNDVIy.tif", 1, true⟩]⟩) 0
          (.coordList []) 250)).body = .archive [⟨"xNDVIy.tif", 1, true⟩] ∧
    extractAll (ensureDir ⟨[], []⟩ "d") "d" [⟨"xNDVIy.tif", 1, true⟩] =
      (⟨[(⟨"d", "xNDVIy.tif"⟩, .complete 1)], ["d"]⟩, none) ∧
    os_path_exists ⟨[(⟨"d", "xNDVIy.tif"⟩, .complete 1)], ["d"]⟩
      (cacheLookupPath "NDVI" "d") = false ∧
    (walkFiles ⟨[(⟨"d", "xNDVIy.tif"⟩, .complete 1)], ["d"]⟩ "d").any
      (fun f => tifMatch "NDVI" f) = true ∧
    (∃ f, tifMatch "NDVI" f = true ∧
      f ∈ walkFiles ⟨[(⟨"d", "xNDVIy.tif"⟩, .complete 1)], ["d"]⟩ "d" ∧
      (export_if_needed (mockEnv ⟨200, .archive [⟨"xNDVIy.tif", 1, true⟩]⟩) 0
        "NDVI" (.coordList []) 250 "d" ⟨[], []⟩).ret =
          .ok (os_path_join "d" f)) :=
  ⟨by decide, by decide, by decide, by decide, by decide, by decide,
   fallback_scan_returns_matching (mockEnv ⟨200, .archive [⟨"xNDVIy.tif", 1, true⟩]⟩)
     0 "NDVI" (.coordList []) 250 "d" ⟨[], []⟩ [⟨"xNDVIy.tif", 1, true⟩]
     ⟨[(⟨"d", "xNDVIy.tif"⟩, .complete 1)], ["d"]⟩
     (by decide) (by decide) (by decide) (by decide) (by decide) (by decide)⟩

/-- Claim C8: every call to `export_if_needed` — cache hit or miss — first
creates the output directory if absent (`os.makedirs(out_dir, exist_ok=True)`)
and never fails with the directory-exists `OSError`; afterwards the directory
exists. -/
theorem cache_dir_idempotent_creation (env : RemoteEnv) (img : Nat)
    (name : String) (region : Region) (scale : Nat) (out_dir : String)
    (fs : FS) :
    out_dir ∈ (export_if_needed env img name region scale out_dir fs).fs.dirs ∧
    ∀ msg, (export_if_needed env img name region scale out_dir fs).ret ≠
      .error (.osError msg) := by
  cases hx : os_path_exists fs (cacheLookupPath name out_dir) with
  | true =>
    rw [export_hit env img name region scale out_dir fs hx]
    exact ⟨mem_ensureDir fs out_dir, fun msg h => Except.noConfusion h⟩
  | false =>
    rw [export_miss env img name region scale out_dir fs hx]
    rcases hdl : _download_url_to_tif env (requestURL env img region scale)
        (cacheLookupPath name out_dir) (ensureDir fs out_dir) with ⟨fs1, res⟩
    have hdirs : fs1.dirs = (ensureDir fs out_dir).dirs := by
      have h := download_dirs env (requestURL env img region scale)
        (cacheLookupPath name out_dir) (ensureDir fs out_dir)
      rw [hdl] at h
      exact h
    cases res with
    | ok u =>
      cases u
      refine ⟨?_, fun msg h => ?_⟩
      · show out_dir ∈ fs1.dirs
        rw [hdirs]
        exact mem_ensureDir fs out_dir
      · exact Except.noConfusion h
    | error e =>
      refine ⟨?_, fun msg h => ?_⟩
      · show out_dir ∈ fs1.dirs
        rw [hdirs]
        exact mem_ensureDir fs out_dir
      · have he : e = ExportError.osError msg := by
          injection h with h2
        exact download_no_osError env (requestURL env img region scale)
          (cacheLookupPath name out_dir) (ensureDir fs out_dir) fs1 e msg hdl he

/-- Claim C10: on a cache miss with a successful download, every member of
the ZIP archive is extracted into the output directory (so files other than
`{name}.tif` may be created), and a pre-existing file at any path that is not
one of the archive's member targets — in particular another descriptor's
final path — is neither removed nor rewritten. -/
theorem extract_frame_effect (env : RemoteEnv) (img : Nat) (name : String)
    (region : Region) (scale : Nat) (out_dir : String) (fs : FS)
    (es : List ZipEntry) (fs1 : FS)
    (hmiss : os_path_exists fs (cacheLookupPath name out_dir) = false)
    (hstat : ¬(400 ≤ (env.httpGet (requestURL env img region scale)).status ∧
              (env.httpGet (requestURL env img region scale)).status < 600))
    (hbody : (env.httpGet (requestURL env img region scale)).body = .archive es)
    (hex : extractAll (ensureDir fs out_dir) out_dir es = (fs1, none)) :
    (export_if_needed env img name region scale out_dir fs).fs = fs1 ∧
    (∀ e, e ∈ es → os_path_exists fs1 (os_path_join out_dir e.filename) = true) ∧
    (∀ p : FPath, (∀ e, e ∈ es → os_path_join out_dir e.filename ≠ p) →
      fs1.getFile p = fs.getFile p) := by
  refine ⟨?_, extractAll_ok_exists out_dir es (ensureDir fs out_dir) fs1 hex,
    fun p hp => ?_⟩
  · rw [export_miss_extract_ok env img name region scale out_dir fs es fs1
        hmiss hstat hbody hex]
  · have h := extractAll_frame out_dir es p hp (ensureDir fs out_dir)
    rw [hex] at h
    simpa [getFile_ensureDir] using h

/-- Claim C10 witness: an archive with members `NDVI.tif` and `extra.tif`
extracted next to a pre-existing file `OTHER.tif`, which keeps its contents. -/
theorem extract_frame_effect_witness :
    os_path_exists ⟨[(⟨"d", "OTHER.tif"⟩, .complete 9)], ["d"]⟩
        (cacheLookupPath "NDVI" "d") = false ∧
    ¬(400 ≤ ((mockEnv ⟨200, .archive [⟨"NDVI.tif", 3, true⟩, ⟨"extra.tif", 4, true⟩]⟩).httpGet
        (requestURL (mockEnv ⟨200, .archive [⟨"NDVI.tif", 3, true⟩, ⟨"extra.tif", 4, true⟩]⟩)
          0 (.coordList []) 250)).status ∧
      ((mockEnv ⟨200, .archive [⟨"NDVI.tif", 3, true⟩, ⟨"extra.tif", 4, true⟩]⟩).httpGet
        (requestURL (mockEnv ⟨200, .archive [⟨"NDVI.tif", 3, true⟩, ⟨"extra.tif", 4, true⟩]⟩)
          0 (.coordList []) 250)).status < 600) ∧
    ((mockEnv ⟨200, .archive [⟨"NDVI.tif", 3, true⟩, ⟨"extra.tif", 4, true⟩]⟩).httpGet
        (requestURL (mockEnv ⟨200, .archive [⟨"NDVI.tif", 3, true⟩, ⟨"extra.tif", 4, true⟩]⟩)
          0 (.coordList []) 250)).body =
      .archive [⟨"NDVI.tif", 3, true⟩, ⟨"extra.tif", 4, true⟩] ∧
    extractAll (ensureDir ⟨[(⟨"d", "OTHER.tif"⟩, .complete 9)], ["d"]⟩ "d") "d"
        [⟨"NDVI.tif", 3, true⟩, ⟨"extra.tif", 4, true⟩] =
      (⟨[(⟨"d", "extra.tif"⟩, .complete 4), (⟨"d", "NDVI.tif"⟩, .complete 3),
         (⟨"d", "OTHER.tif"⟩, .complete 9)], ["d"]⟩, none) ∧
    ((export_if_needed (mockEnv ⟨200, .archive [⟨"NDVI.tif", 3, true⟩, ⟨"extra.tif", 4, true⟩]⟩)
        0 "NDVI" (.coordList []) 250 "d" ⟨[(⟨"d", "OTHER.tif"⟩, .complete 9)], ["d"]⟩).fs =
      (⟨[(⟨"d", "extra.tif"⟩, .complete 4), (⟨"d", "NDVI.tif"⟩, .complete 3),
         (⟨"d", "OTHER.tif"⟩, .complete 9)], ["d"]⟩ : FS) ∧
     (∀ e, e ∈ [ZipEntry.mk "NDVI.tif" 3 true, ZipEntry.mk "extra.tif" 4 true] →
        os_path_exists ⟨[(⟨"d", "extra.tif"⟩, .complete 4), (⟨"d", "NDVI.tif"⟩, .complete 3),
          (⟨"d", "OTHER.tif"⟩, .complete 9)], ["d"]⟩ (os_path_join "d" e.filename) = true) ∧
     (∀ p : FPath,
        (∀ e, e ∈ [ZipEntry.mk "NDVI.tif" 3 true, ZipEntry.mk "extra.tif" 4 true] →
          os_path_join "d" e.filename ≠ p) →
        FS.getFile ⟨[(⟨"d", "extra.tif"⟩, .complete 4), (⟨"d", "NDVI.tif"⟩, .complete 3),
          (⟨"d", "OTHER.tif"⟩, .complete 9)], ["d"]⟩ p =
        FS.getFile ⟨[(⟨"d", "OTHER.tif"⟩, .complete 9)], ["d"]⟩ p)) :=
  ⟨by decide, by decide, by decide, by decide,
   extract_frame_effect (mockEnv ⟨200, .archive [⟨"NDVI.tif", 3, true⟩, ⟨"extra.tif", 4, true⟩]⟩)
     0 "NDVI" (.coordList []) 250 "d" ⟨[(⟨"d", "OTHER.tif"⟩, .complete 9)], ["d"]⟩
     [⟨"NDVI.tif", 3, true⟩, ⟨"extra.tif", 4, true⟩]
     ⟨[(⟨"d", "extra.tif"⟩, .complete 4), (⟨"d", "NDVI.tif"⟩, .complete 3),
       (⟨"d", "OTHER.tif"⟩, .complete 9)], ["d"]⟩
     (by decide) (by decide) (by decide) (by decide)⟩

/-- Claim C9: the Completion Waiter polls at the fixed interval of 30
time-units with no backoff and no maximum wait: as long as only
non-terminal states have been observed it is still waiting (it never gives up
by itself, whatever bound is put on the number of polls); when the first
terminal state arrives at poll `n`, it has waited exactly `30 * n`; on
`Completed` it returns to the caller, and on `Failed` it raises an error
carrying the provider's status payload. -/
theorem completion_waiter_polls_fixed_interval (status : Nat → JobState)
    (n : Nat) (hbefore : ∀ j, j < n → (status j).isTerminal = false) :
    (∀ fuel, fuel ≤ n → waitForCompletion status fuel = none) ∧
    (status n = .completed → ∀ fuel, n < fuel →
      waitForCompletion status fuel = some (.ok (), 30 * n)) ∧
    (∀ p, status n = .failed p → ∀ fuel, n < fuel →
      waitForCompletion status fuel = some (.error p, 30 * n)) := by
  refine ⟨fun fuel hfuel => ?_, fun hc fuel hfuel => ?_, fun p hp fuel hfuel => ?_⟩
  · exact pollLoop_none status 30 fuel 0
      (fun j hj => by simpa using hbefore j (by omega))
  · have h := pollLoop_completed status 30 fuel 0 n
      (fun j hj => by simpa using hbefore j hj) (by simpa using hc) hfuel
    simpa using h
  · have h := pollLoop_failed status 30 p fuel 0 n
      (fun j hj => by simpa using hbefore j hj) (by simpa using hp) hfuel
    simpa using h

/-- Claim C9 witness: a job that runs for two polls and then fails with the
provider payload `"quota"`. -/
theorem completion_waiter_witness :
    (∀ j, j < 2 →
      ((fun k => if k < 2 then JobState.running else .failed "quota") j).isTerminal
        = false) ∧
    ((∀ fuel, fuel ≤ 2 →
        waitForCompletion (fun k => if k < 2 then JobState.running else .failed "quota")
          fuel = none) ∧
     ((fun k => if k < 2 then JobState.running else .failed "quota") 2 = .completed →
       ∀ fuel, 2 < fuel →
        waitForCompletion (fun k => if k < 2 then JobState.running else .failed "quota")
          fuel = some (.ok (), 30 * 2)) ∧
     (∀ p, (fun k => if k < 2 then JobState.running else .failed "quota") 2 = .failed p →
       ∀ fuel, 2 < fuel →
        waitForCompletion (fun k => if k < 2 then JobState.running else .failed "quota")
          fuel = some (.error p, 30 * 2))) :=
  ⟨fun j hj => by
      match j, hj with
      | 0, _ => rfl
      | 1, _ => rfl,
   completion_waiter_polls_fixed_interval
     (fun k => if k < 2 then JobState.running else .failed "quota") 2
     (fun j hj => by
       match j, hj with
       | 0, _ => rfl
       | 1, _ => rfl)⟩

end GeeUtils
